import Mathlib

/-!
Verification of the payroll model of sistema-nomina-python.

Shallow embedding, translated from src/src/models/*.py:
- dates are year/month/day triples; Python date comparison is
  lexicographic on (year, month, day), and date subtraction is the
  difference of proleptic-Gregorian ordinals (date.toordinal), which we
  reproduce with the same tables and formulas CPython datetime uses;
- money, hours, rates are rationals (the source uses Python floats; the
  formulas involve only +, -, *, min, max on decimal literals, which
  rationals carry exactly);
- constructors and setters that raise ValueError are embedded as
  Option-returning functions: none means the exception was raised and no
  object was produced (or, for a setter, no update happened);
- methods that read the wall clock (date.today()) take the current date
  hoy as an explicit parameter;
- the source name obtener_antiguedad_años is rendered
  obtener_antiguedad_anos (Lean identifiers do not allow the letter
  that the source uses there), and AÑOS_MINIMOS_* constants ANOS_MINIMOS_*.
-/

namespace SistemaNomina

/-- Calendar date, as Python datetime.date: year, month, day. -/
structure DateYMD where
  year : ℤ
  month : ℤ
  day : ℤ
deriving DecidableEq

/-- Python date ordering (strict): lexicographic on (year, month, day). -/
def dateLt (a b : DateYMD) : Prop :=
  a.year < b.year ∨
    (a.year = b.year ∧ (a.month < b.month ∨ (a.month = b.month ∧ a.day < b.day)))

/-- Python date ordering (non-strict). -/
def dateLe (a b : DateYMD) : Prop :=
  dateLt a b ∨ a = b

instance instDecDateLt (a b : DateYMD) : Decidable (dateLt a b) := by
  unfold dateLt
  infer_instance

instance instDecDateLe (a b : DateYMD) : Decidable (dateLe a b) := by
  unfold dateLe
  infer_instance

/-- Leap-year rule of Python datetime (proleptic Gregorian). -/
def isLeap (y : ℤ) : Prop :=
  y % 4 = 0 ∧ (y % 100 ≠ 0 ∨ y % 400 = 0)

instance instDecIsLeap (y : ℤ) : Decidable (isLeap y) := by
  unfold isLeap
  infer_instance

/-- Number of days of a month, as CPython datetime _days_in_month. -/
def daysInMonth (y m : ℤ) : ℤ :=
  if m = 2 then (if isLeap y then 29 else 28)
  else if m = 4 ∨ m = 6 ∨ m = 9 ∨ m = 11 then 30
  else 31

/-- Cumulative days before a month, as CPython datetime
_days_before_month: a fixed table plus a leap correction for
months after February. -/
def daysBeforeMonth (y m : ℤ) : ℤ :=
  (if m ≤ 1 then 0 else if m = 2 then 31 else if m = 3 then 59
   else if m = 4 then 90 else if m = 5 then 120 else if m = 6 then 151
   else if m = 7 then 181 else if m = 8 then 212 else if m = 9 then 243
   else if m = 10 then 273 else if m = 11 then 304 else 334)
  + (if 2 < m ∧ isLeap y then 1 else 0)

/-- Days before January 1 of year y, as CPython datetime
_days_before_year.  Lean integer division is Euclidean, which agrees
with Python floor division whenever the divisor is positive, as it is
here. -/
def daysBeforeYear (y : ℤ) : ℤ :=
  (y - 1) * 365 + (y - 1) / 4 - (y - 1) / 100 + (y - 1) / 400

/-- Proleptic-Gregorian ordinal of a date, as Python date.toordinal:
January 1 of year 1 is day 1. -/
def toOrdinal (d : DateYMD) : ℤ :=
  daysBeforeYear d.year + daysBeforeMonth d.year d.month + d.day

/-- The invariants Python's date constructor establishes on every date
value: year in MINYEAR..MAXYEAR, month in 1..12, day in
1..days-in-month. -/
def ValidDate (d : DateYMD) : Prop :=
  1 ≤ d.year ∧ d.year ≤ 9999 ∧ 1 ≤ d.month ∧ d.month ≤ 12 ∧
    1 ≤ d.day ∧ d.day ≤ daysInMonth d.year d.month

instance instDecValidDate (d : DateYMD) : Decidable (ValidDate d) := by
  unfold ValidDate
  infer_instance

/-- Base employee data: Empleado holds id_empleado, nombre,
fecha_ingreso (src/src/models/empleado.py). -/
structure Empleado where
  id_empleado : String
  nombre : String
  fecha_ingreso : DateYMD
deriving DecidableEq

/-- Empleado.__init__ together with Empleado._validar_datos: the
constructor stores the three fields and raises ValueError when
id_empleado or nombre is empty (Python falsiness of a string) or when
fecha_ingreso is strictly after today (hoy).  none embeds the raised
exception: no object exists in that case. -/
def mkEmpleado (id_empleado nombre : String) (fecha_ingreso hoy : DateYMD) :
    Option Empleado :=
  if id_empleado = "" ∨ nombre = "" then none
  else if dateLt hoy fecha_ingreso then none
  else some ⟨id_empleado, nombre, fecha_ingreso⟩

/-- Empleado.obtener_antiguedad_años: whole years since fecha_ingreso,
minus one when the current month/day precedes the hire month/day
(Python compares the tuples (month, day) lexicographically).  The
wall-clock date.today() is passed as hoy. -/
def Empleado.obtener_antiguedad_anos (e : Empleado) (hoy : DateYMD) : ℤ :=
  let anos := hoy.year - e.fecha_ingreso.year
  if hoy.month < e.fecha_ingreso.month ∨
      (hoy.month = e.fecha_ingreso.month ∧ hoy.day < e.fecha_ingreso.day)
  then anos - 1
  else anos

/-- Empleado.calcular_deducciones: flat 4 percent of the gross salary,
defined once on the base class. -/
def Empleado.calcular_deducciones (salario_bruto : ℚ) : ℚ :=
  salario_bruto * 0.04

/-- EmpleadoAsalariado (src/src/models/empleado_asalariado.py). -/
structure EmpleadoAsalariado where
  base : Empleado
  salario_mensual : ℚ
deriving DecidableEq

def EmpleadoAsalariado.BONO_ALIMENTACION : ℚ := 1000000

def EmpleadoAsalariado.PORCENTAJE_BONO_ANTIGUEDAD : ℚ := 0.10

def EmpleadoAsalariado.ANOS_MINIMOS_BONO : ℤ := 5

/-- EmpleadoAsalariado.__init__: base validation first (super), then
ValueError when salario_mensual <= 0. -/
def mkEmpleadoAsalariado (id_empleado nombre : String) (fecha_ingreso hoy : DateYMD)
    (salario_mensual : ℚ) : Option EmpleadoAsalariado :=
  match mkEmpleado id_empleado nombre fecha_ingreso hoy with
  | none => none
  | some b => if salario_mensual ≤ 0 then none else some ⟨b, salario_mensual⟩

/-- EmpleadoAsalariado.calcular_salario_bruto: the fixed monthly salary. -/
def EmpleadoAsalariado.calcular_salario_bruto (e : EmpleadoAsalariado) : ℚ :=
  e.salario_mensual

/-- EmpleadoAsalariado._calcular_bono_antiguedad: 10 percent of the
salary when strictly more than 5 whole years of tenure, else 0. -/
def EmpleadoAsalariado.calcular_bono_antiguedad (e : EmpleadoAsalariado)
    (hoy : DateYMD) : ℚ :=
  if e.base.obtener_antiguedad_anos hoy > EmpleadoAsalariado.ANOS_MINIMOS_BONO
  then e.salario_mensual * EmpleadoAsalariado.PORCENTAJE_BONO_ANTIGUEDAD
  else 0

/-- EmpleadoAsalariado.calcular_beneficios: meal bonus plus seniority
bonus. -/
def EmpleadoAsalariado.calcular_beneficios (e : EmpleadoAsalariado)
    (hoy : DateYMD) : ℚ :=
  EmpleadoAsalariado.BONO_ALIMENTACION + e.calcular_bono_antiguedad hoy

/-- EmpleadoPorHoras (src/src/models/empleado_por_horas.py). -/
structure EmpleadoPorHoras where
  base : Empleado
  tarifa_por_hora : ℚ
  horas_trabajadas : ℚ
  acepta_fondo_ahorro : Bool
deriving DecidableEq

def EmpleadoPorHoras.HORAS_NORMALES_LIMITE : ℚ := 40

def EmpleadoPorHoras.MULTIPLICADOR_HORAS_EXTRAS : ℚ := 1.5

def EmpleadoPorHoras.PORCENTAJE_FONDO_AHORRO : ℚ := 0.02

def EmpleadoPorHoras.ANOS_MINIMOS_FONDO : ℤ := 1

/-- EmpleadoPorHoras.__init__: base validation, then ValueError when
tarifa_por_hora <= 0 or horas_trabajadas < 0. -/
def mkEmpleadoPorHoras (id_empleado nombre : String) (fecha_ingreso hoy : DateYMD)
    (tarifa_por_hora horas_trabajadas : ℚ) (acepta_fondo_ahorro : Bool) :
    Option EmpleadoPorHoras :=
  match mkEmpleado id_empleado nombre fecha_ingreso hoy with
  | none => none
  | some b =>
    if tarifa_por_hora ≤ 0 then none
    else if horas_trabajadas < 0 then none
    else some ⟨b, tarifa_por_hora, horas_trabajadas, acepta_fondo_ahorro⟩

/-- EmpleadoPorHoras._calcular_horas_normales: min(horas, 40). -/
def EmpleadoPorHoras.calcular_horas_normales (e : EmpleadoPorHoras) : ℚ :=
  min e.horas_trabajadas EmpleadoPorHoras.HORAS_NORMALES_LIMITE

/-- EmpleadoPorHoras._calcular_horas_extras: the excess over 40 hours,
else 0. -/
def EmpleadoPorHoras.calcular_horas_extras (e : EmpleadoPorHoras) : ℚ :=
  if e.horas_trabajadas > EmpleadoPorHoras.HORAS_NORMALES_LIMITE
  then e.horas_trabajadas - EmpleadoPorHoras.HORAS_NORMALES_LIMITE
  else 0

/-- EmpleadoPorHoras.calcular_salario_bruto: regular hours at the base
rate plus overtime hours at 1.5 times the rate. -/
def EmpleadoPorHoras.calcular_salario_bruto (e : EmpleadoPorHoras) : ℚ :=
  e.calcular_horas_normales * e.tarifa_por_hora +
    e.calcular_horas_extras * e.tarifa_por_hora *
      EmpleadoPorHoras.MULTIPLICADOR_HORAS_EXTRAS

/-- EmpleadoPorHoras._calcular_fondo_ahorro: 2 percent of the gross
when tenure is strictly more than 1 year and the employee accepted the
fund, else 0. -/
def EmpleadoPorHoras.calcular_fondo_ahorro (e : EmpleadoPorHoras)
    (hoy : DateYMD) : ℚ :=
  if e.base.obtener_antiguedad_anos hoy > EmpleadoPorHoras.ANOS_MINIMOS_FONDO ∧
      e.acepta_fondo_ahorro = true
  then e.calcular_salario_bruto * EmpleadoPorHoras.PORCENTAJE_FONDO_AHORRO
  else 0

/-- EmpleadoPorHoras.calcular_beneficios: the savings fund only. -/
def EmpleadoPorHoras.calcular_beneficios (e : EmpleadoPorHoras)
    (hoy : DateYMD) : ℚ :=
  e.calcular_fondo_ahorro hoy

/-- The horas_trabajadas property setter: ValueError (none) on a
negative value, otherwise the stored hours are replaced and every other
field is kept. -/
def EmpleadoPorHoras.set_horas_trabajadas (e : EmpleadoPorHoras) (horas : ℚ) :
    Option EmpleadoPorHoras :=
  if horas < 0 then none
  else some ⟨e.base, e.tarifa_por_hora, horas, e.acepta_fondo_ahorro⟩

/-- EmpleadoPorComision (src/src/models/empleado_por_comision.py). -/
structure EmpleadoPorComision where
  base : Empleado
  salario_base : ℚ
  porcentaje_comision : ℚ
  ventas_mes : ℚ
deriving DecidableEq

def EmpleadoPorComision.BONO_ALIMENTACION : ℚ := 1000000

def EmpleadoPorComision.VENTAS_MINIMAS_BONO : ℚ := 20000000

def EmpleadoPorComision.PORCENTAJE_BONO_VENTAS : ℚ := 0.03

/-- EmpleadoPorComision.__init__: base validation, then ValueError when
salario_base <= 0, porcentaje_comision is outside [0, 1], or
ventas_mes < 0. -/
def mkEmpleadoPorComision (id_empleado nombre : String) (fecha_ingreso hoy : DateYMD)
    (salario_base porcentaje_comision ventas_mes : ℚ) :
    Option EmpleadoPorComision :=
  match mkEmpleado id_empleado nombre fecha_ingreso hoy with
  | none => none
  | some b =>
    if salario_base ≤ 0 then none
    else if porcentaje_comision < 0 ∨ porcentaje_comision > 1 then none
    else if ventas_mes < 0 then none
    else some ⟨b, salario_base, porcentaje_comision, ventas_mes⟩

/-- EmpleadoPorComision._calcular_comision: sales times the commission
rate. -/
def EmpleadoPorComision.calcular_comision (e : EmpleadoPorComision) : ℚ :=
  e.ventas_mes * e.porcentaje_comision

/-- EmpleadoPorComision._calcular_bono_ventas: 3 percent of the whole
sales figure when sales are strictly above 20,000,000, else 0. -/
def EmpleadoPorComision.calcular_bono_ventas (e : EmpleadoPorComision) : ℚ :=
  if e.ventas_mes > EmpleadoPorComision.VENTAS_MINIMAS_BONO
  then e.ventas_mes * EmpleadoPorComision.PORCENTAJE_BONO_VENTAS
  else 0

/-- EmpleadoPorComision.calcular_salario_bruto: base salary plus
commission. -/
def EmpleadoPorComision.calcular_salario_bruto (e : EmpleadoPorComision) : ℚ :=
  e.salario_base + e.calcular_comision

/-- EmpleadoPorComision.calcular_beneficios: meal bonus plus sales
bonus. -/
def EmpleadoPorComision.calcular_beneficios (e : EmpleadoPorComision) : ℚ :=
  EmpleadoPorComision.BONO_ALIMENTACION + e.calcular_bono_ventas

/-- The ventas_mes property setter: ValueError (none) on a negative
value, otherwise the stored sales are replaced and every other field is
kept. -/
def EmpleadoPorComision.set_ventas_mes (e : EmpleadoPorComision) (ventas : ℚ) :
    Option EmpleadoPorComision :=
  if ventas < 0 then none
  else some ⟨e.base, e.salario_base, e.porcentaje_comision, ventas⟩

/-- EmpleadoTemporal (src/src/models/empleado_temporal.py). -/
structure EmpleadoTemporal where
  base : Empleado
  salario_mensual : ℚ
  fecha_fin_contrato : DateYMD
deriving DecidableEq

/-- EmpleadoTemporal.__init__: base validation, then ValueError when
salario_mensual <= 0 or fecha_fin_contrato <= fecha_ingreso. -/
def mkEmpleadoTemporal (id_empleado nombre : String) (fecha_ingreso hoy : DateYMD)
    (salario_mensual : ℚ) (fecha_fin_contrato : DateYMD) :
    Option EmpleadoTemporal :=
  match mkEmpleado id_empleado nombre fecha_ingreso hoy with
  | none => none
  | some b =>
    if salario_mensual ≤ 0 then none
    else if dateLe fecha_fin_contrato fecha_ingreso then none
    else some ⟨b, salario_mensual, fecha_fin_contrato⟩

/-- EmpleadoTemporal.calcular_salario_bruto: the fixed monthly salary. -/
def EmpleadoTemporal.calcular_salario_bruto (e : EmpleadoTemporal) : ℚ :=
  e.salario_mensual

/-- EmpleadoTemporal.calcular_beneficios: always 0. -/
def EmpleadoTemporal.calcular_beneficios (_e : EmpleadoTemporal) : ℚ :=
  0

/-- EmpleadoTemporal.contrato_vigente: date.today() <= fecha_fin_contrato. -/
def EmpleadoTemporal.contrato_vigente (e : EmpleadoTemporal) (hoy : DateYMD) : Bool :=
  decide (dateLe hoy e.fecha_fin_contrato)

/-- EmpleadoTemporal.dias_restantes_contrato:
(fecha_fin_contrato - date.today()).days, i.e. the difference of the
two Python date ordinals. -/
def EmpleadoTemporal.dias_restantes_contrato (e : EmpleadoTemporal)
    (hoy : DateYMD) : ℤ :=
  toOrdinal e.fecha_fin_contrato - toOrdinal hoy

/-- Closed sum of the four concrete employee variants; the abstract
base class Empleado is never instantiated on its own. -/
inductive AnyEmpleado where
| asalariado : EmpleadoAsalariado → AnyEmpleado
| porHoras : EmpleadoPorHoras → AnyEmpleado
| porComision : EmpleadoPorComision → AnyEmpleado
| temporal : EmpleadoTemporal → AnyEmpleado
deriving DecidableEq

/-- Dynamic dispatch of the abstract calcular_salario_bruto. -/
def AnyEmpleado.calcular_salario_bruto : AnyEmpleado → ℚ
| .asalariado e => e.calcular_salario_bruto
| .porHoras e => e.calcular_salario_bruto
| .porComision e => e.calcular_salario_bruto
| .temporal e => e.calcular_salario_bruto

/-- Dynamic dispatch of the abstract calcular_beneficios. -/
def AnyEmpleado.calcular_beneficios : AnyEmpleado → DateYMD → ℚ
| .asalariado e, hoy => e.calcular_beneficios hoy
| .porHoras e, hoy => e.calcular_beneficios hoy
| .porComision e, _ => e.calcular_beneficios
| .temporal e, _ => e.calcular_beneficios

/-- calcular_deducciones as reached through a variant instance: no
variant overrides it, so every branch resolves to the base-class
Empleado.calcular_deducciones. -/
def AnyEmpleado.calcular_deducciones : AnyEmpleado → ℚ → ℚ
| .asalariado _, salario_bruto => Empleado.calcular_deducciones salario_bruto
| .porHoras _, salario_bruto => Empleado.calcular_deducciones salario_bruto
| .porComision _, salario_bruto => Empleado.calcular_deducciones salario_bruto
| .temporal _, salario_bruto => Empleado.calcular_deducciones salario_bruto

/-- Empleado.calcular_salario_neto, the shared base-class method:
gross plus benefits minus deductions, clamped at zero by max(0, ...). -/
def AnyEmpleado.calcular_salario_neto (e : AnyEmpleado) (hoy : DateYMD) : ℚ :=
  let salario_bruto := e.calcular_salario_bruto
  let beneficios := e.calcular_beneficios hoy
  let deducciones := e.calcular_deducciones salario_bruto
  max 0 (salario_bruto + beneficios - deducciones)

/-- The numeric-field constraints the variant constructors enforce; a
value of AnyEmpleado satisfying Valid is one that some successful
construction can produce. -/
def AnyEmpleado.Valid : AnyEmpleado → Prop
| .asalariado e => 0 < e.salario_mensual
| .porHoras e => 0 < e.tarifa_por_hora ∧ 0 ≤ e.horas_trabajadas
| .porComision e =>
    0 < e.salario_base ∧ 0 ≤ e.porcentaje_comision ∧
      e.porcentaje_comision ≤ 1 ∧ 0 ≤ e.ventas_mes
| .temporal e => 0 < e.salario_mensual ∧ dateLt e.base.fecha_ingreso e.fecha_fin_contrato

instance instDecValid (e : AnyEmpleado) : Decidable e.Valid := by
  cases e <;> (unfold AnyEmpleado.Valid; infer_instance)

/-- Wrapper giving each variant its inherited calcular_salario_neto. -/
def EmpleadoAsalariado.calcular_salario_neto (e : EmpleadoAsalariado)
    (hoy : DateYMD) : ℚ :=
  AnyEmpleado.calcular_salario_neto (.asalariado e) hoy

/-- Wrapper giving each variant its inherited calcular_salario_neto. -/
def EmpleadoPorHoras.calcular_salario_neto (e : EmpleadoPorHoras)
    (hoy : DateYMD) : ℚ :=
  AnyEmpleado.calcular_salario_neto (.porHoras e) hoy

/-- Wrapper giving each variant its inherited calcular_salario_neto. -/
def EmpleadoPorComision.calcular_salario_neto (e : EmpleadoPorComision)
    (hoy : DateYMD) : ℚ :=
  AnyEmpleado.calcular_salario_neto (.porComision e) hoy

/-- Wrapper giving each variant its inherited calcular_salario_neto. -/
def EmpleadoTemporal.calcular_salario_neto (e : EmpleadoTemporal)
    (hoy : DateYMD) : ℚ :=
  AnyEmpleado.calcular_salario_neto (.temporal e) hoy

/-- The value types appearing in the obtener_detalle_nomina
dictionaries: numbers, strings, booleans and the day count. -/
inductive Valor where
| num : ℚ → Valor
| str : String → Valor
| boolean : Bool → Valor
| int : ℤ → Valor
deriving DecidableEq

/-- Zero-padding to two digits, as strftime %m and %d produce. -/
def pad2 (n : ℤ) : String :=
  if n < 10 then ("0") ++ toString n else toString n

/-- Zero-padding to four digits, as strftime %Y produces. -/
def pad4 (n : ℤ) : String :=
  if n < 10 then ("000") ++ toString n
  else if n < 100 then ("00") ++ toString n
  else if n < 1000 then ("0") ++ toString n
  else toString n

/-- date.strftime with format %Y-%m-%d. -/
def strftimeYmd (d : DateYMD) : String :=
  pad4 d.year ++ ("-") ++ pad2 d.month ++ ("-") ++ pad2 d.day

/-- EmpleadoAsalariado.obtener_detalle_nomina: the payroll breakdown
dictionary, in the insertion order of the source. -/
def EmpleadoAsalariado.obtener_detalle_nomina (e : EmpleadoAsalariado)
    (hoy : DateYMD) : List (String × Valor) :=
  let salario_bruto := e.calcular_salario_bruto
  let bono_antiguedad := e.calcular_bono_antiguedad hoy
  let deducciones := Empleado.calcular_deducciones salario_bruto
  [("empleado", Valor.str e.base.nombre),
   ("tipo", Valor.str ("Asalariado")),
   ("salario_bruto", Valor.num salario_bruto),
   ("bono_alimentacion", Valor.num EmpleadoAsalariado.BONO_ALIMENTACION),
   ("bono_antiguedad", Valor.num bono_antiguedad),
   ("deducciones", Valor.num deducciones),
   ("salario_neto", Valor.num (e.calcular_salario_neto hoy))]

/-- EmpleadoPorHoras.obtener_detalle_nomina. -/
def EmpleadoPorHoras.obtener_detalle_nomina (e : EmpleadoPorHoras)
    (hoy : DateYMD) : List (String × Valor) :=
  let salario_bruto := e.calcular_salario_bruto
  let fondo_ahorro := e.calcular_fondo_ahorro hoy
  let deducciones := Empleado.calcular_deducciones salario_bruto
  [("empleado", Valor.str e.base.nombre),
   ("tipo", Valor.str ("Por Horas")),
   ("horas_normales", Valor.num e.calcular_horas_normales),
   ("horas_extras", Valor.num e.calcular_horas_extras),
   ("salario_bruto", Valor.num salario_bruto),
   ("fondo_ahorro", Valor.num fondo_ahorro),
   ("deducciones", Valor.num deducciones),
   ("salario_neto", Valor.num (e.calcular_salario_neto hoy))]

/-- EmpleadoPorComision.obtener_detalle_nomina. -/
def EmpleadoPorComision.obtener_detalle_nomina (e : EmpleadoPorComision)
    (hoy : DateYMD) : List (String × Valor) :=
  let salario_bruto := e.calcular_salario_bruto
  let comision := e.calcular_comision
  let bono_ventas := e.calcular_bono_ventas
  let deducciones := Empleado.calcular_deducciones salario_bruto
  [("empleado", Valor.str e.base.nombre),
   ("tipo", Valor.str ("Por Comisión")),
   ("salario_base", Valor.num e.salario_base),
   ("ventas", Valor.num e.ventas_mes),
   ("comision", Valor.num comision),
   ("salario_bruto", Valor.num salario_bruto),
   ("bono_alimentacion", Valor.num EmpleadoPorComision.BONO_ALIMENTACION),
   ("bono_ventas", Valor.num bono_ventas),
   ("deducciones", Valor.num deducciones),
   ("salario_neto", Valor.num (e.calcular_salario_neto hoy))]

/-- EmpleadoTemporal.obtener_detalle_nomina. -/
def EmpleadoTemporal.obtener_detalle_nomina (e : EmpleadoTemporal)
    (hoy : DateYMD) : List (String × Valor) :=
  let salario_bruto := e.calcular_salario_bruto
  let deducciones := Empleado.calcular_deducciones salario_bruto
  [("empleado", Valor.str e.base.nombre),
   ("tipo", Valor.str ("Temporal")),
   ("salario_bruto", Valor.num salario_bruto),
   ("beneficios", Valor.num 0),
   ("deducciones", Valor.num deducciones),
   ("salario_neto", Valor.num (e.calcular_salario_neto hoy)),
   ("fecha_fin_contrato", Valor.str (strftimeYmd e.fecha_fin_contrato)),
   ("contrato_vigente", Valor.boolean (e.contrato_vigente hoy)),
   ("dias_restantes", Valor.int (e.dias_restantes_contrato hoy))]

/-! Concrete instances used to witness the theorems below.  hoy0 is the
fixed evaluation date. -/

def hoy0 : DateYMD := ⟨2025, 6, 1⟩

/-- A salaried employee hired exactly 5 whole years before hoy0. -/
def ejemploAsalariado : EmpleadoAsalariado :=
  ⟨⟨("A1"), ("Ana"), ⟨2020, 6, 1⟩⟩, 5000000⟩

/-- An hourly employee (scenario C rate and hours) hired exactly 1 whole
year before hoy0. -/
def ejemploPorHoras : EmpleadoPorHoras :=
  ⟨⟨("H1"), ("Hugo"), ⟨2024, 6, 1⟩⟩, 50000, 45, false⟩

/-- An hourly employee with no overtime (scenario D hours). -/
def ejemploPorHoras35 : EmpleadoPorHoras :=
  ⟨⟨("H2"), ("Hilda"), ⟨2024, 6, 1⟩⟩, 50000, 35, true⟩

/-- The commission employee of scenario E. -/
def ejemploPorComision : EmpleadoPorComision :=
  ⟨⟨("C1"), ("Carla"), ⟨2020, 1, 15⟩⟩, 2000000, 0.05, 25000000⟩

/-- A commission employee with sales exactly at the 20,000,000 bonus
threshold. -/
def ejemploPorComisionBorde : EmpleadoPorComision :=
  ⟨⟨("C2"), ("Celia"), ⟨2020, 1, 15⟩⟩, 2000000, 0.05, 20000000⟩

/-- A temporary employee whose contract runs past hoy0. -/
def ejemploTemporal : EmpleadoTemporal :=
  ⟨⟨("T1"), ("Tomas"), ⟨2024, 1, 1⟩⟩, 3000000, ⟨2025, 12, 31⟩⟩

/-- Modelled from the spec: the detail field list that section 4.2
gives for the salaried variant ("employee name, type tag Asalariado,
gross pay, meal benefit, seniority bonus, deductions, net pay"),
written with the key names the source uses for those concepts. -/
def specListedFieldsAsalariado : List String :=
  [("empleado"), ("tipo"), ("salario_bruto"), ("bono_alimentacion"),
   ("bono_antiguedad"), ("deducciones"), ("salario_neto")]

/-- Modelled from the spec: the detail field list that section 4.3
gives for the hourly variant ("regular hours, overtime hours, gross
pay, savings-fund amount, deductions, net pay"), written with the key
names the source uses for those concepts. -/
def specListedFieldsPorHoras : List String :=
  [("horas_normales"), ("horas_extras"), ("salario_bruto"),
   ("fondo_ahorro"), ("deducciones"), ("salario_neto")]

/-- Modelled from the spec: the detail field list that section 4.4
gives for the commission variant ("base salary, sales, commission,
gross pay, meal benefit, sales bonus, deductions, net pay"). -/
def specListedFieldsPorComision : List String :=
  [("salario_base"), ("ventas"), ("comision"), ("salario_bruto"),
   ("bono_alimentacion"), ("bono_ventas"), ("deducciones"), ("salario_neto")]

/-- Modelled from the spec: the detail field list that section 4.5
gives for the temporary variant ("gross pay, zero benefits, deductions,
net pay, formatted contract end date, contract_active, days_remaining"). -/
def specListedFieldsTemporal : List String :=
  [("salario_bruto"), ("beneficios"), ("deducciones"), ("salario_neto"),
   ("fecha_fin_contrato"), ("contrato_vigente"), ("dias_restantes")]

/-! Calendar facts about the embedded CPython date arithmetic, used to
settle the contract-expiry claim. -/

theorem daysInMonth_pos (y m : ℤ) : 0 < daysInMonth y m := by
  unfold daysInMonth
  split_ifs <;> omega

theorem daysBeforeMonth_succ (y m : ℤ) (h1 : 1 ≤ m) (h2 : m ≤ 11) :
    daysBeforeMonth y (m + 1) = daysBeforeMonth y m + daysInMonth y m := by
  interval_cases m <;>
    by_cases hL : isLeap y <;>
    simp [daysBeforeMonth, daysInMonth, hL]

theorem daysBeforeMonth_one (y : ℤ) : daysBeforeMonth y 1 = 0 := by
  simp [daysBeforeMonth]

theorem daysBeforeMonth_twelve (y : ℤ) :
    daysBeforeMonth y 12 = 334 + (if isLeap y then 1 else 0) := by
  by_cases hL : isLeap y <;> simp [daysBeforeMonth, hL]

theorem daysBeforeMonth_mono (y : ℤ) {m1 m2 : ℤ} (h1 : 1 ≤ m1) (h : m1 ≤ m2)
    (h2 : m2 ≤ 12) : daysBeforeMonth y m1 ≤ daysBeforeMonth y m2 := by
  have key : ∀ n, m1 ≤ n → (n ≤ 12 → daysBeforeMonth y m1 ≤ daysBeforeMonth y n) := by
    refine Int.le_induction ?_ ?_
    · intro _
      exact le_refl _
    · intro n hn ih hb
      have hstep := daysBeforeMonth_succ y n (by omega) (by omega)
      have hpos := daysInMonth_pos y n
      have := ih (by omega)
      omega
  exact key m2 h h2

theorem daysBeforeYear_succ (y : ℤ) :
    daysBeforeYear (y + 1) = daysBeforeYear y + 365 + (if isLeap y then 1 else 0) := by
  unfold daysBeforeYear isLeap
  split_ifs with h
  · omega
  · omega

theorem daysBeforeYear_mono {a b : ℤ} (h : a ≤ b) :
    daysBeforeYear a ≤ daysBeforeYear b := by
  unfold daysBeforeYear
  omega

theorem monthday_le_year (y m d : ℤ) (hm : 1 ≤ m) (hm2 : m ≤ 12)
    (hd : d ≤ daysInMonth y m) :
    daysBeforeMonth y m + d ≤ 365 + (if isLeap y then 1 else 0) := by
  rcases lt_or_eq_of_le hm2 with hlt | heq
  · have hstep := daysBeforeMonth_succ y m (by omega) (by omega)
    have hmono := daysBeforeMonth_mono y (show (1:ℤ) ≤ m + 1 by omega)
      (show m + 1 ≤ 12 by omega) (le_refl 12)
    have h12 := daysBeforeMonth_twelve y
    omega
  · subst heq
    have h12 := daysBeforeMonth_twelve y
    have : daysInMonth y 12 = 31 := by simp [daysInMonth]
    omega

/-- Strict monotonicity of the Python date ordinal with respect to the
lexicographic date order, on valid dates. -/
theorem toOrdinal_lt_of_dateLt {a b : DateYMD} (ha : ValidDate a)
    (hb : ValidDate b) (h : dateLt a b) : toOrdinal a < toOrdinal b := by
  obtain ⟨hay1, hay2, ham1, ham2, had1, had2⟩ := ha
  obtain ⟨hby1, hby2, hbm1, hbm2, hbd1, hbd2⟩ := hb
  unfold toOrdinal
  rcases h with hy | ⟨hyeq, hm | ⟨hmeq, hd⟩⟩
  · have h1 := monthday_le_year a.year a.month a.day ham1 ham2 had2
    have h2 := daysBeforeYear_succ a.year
    have h3 := daysBeforeYear_mono (show a.year + 1 ≤ b.year by omega)
    have h4 : daysBeforeMonth b.year 1 ≤ daysBeforeMonth b.year b.month :=
      daysBeforeMonth_mono b.year (le_refl 1) hbm1 hbm2
    have h5 := daysBeforeMonth_one b.year
    omega
  · rw [hyeq]
    rw [hyeq] at had2
    have hstep := daysBeforeMonth_succ b.year a.month (by omega) (by omega)
    have hpos := daysInMonth_pos b.year a.month
    have hmono := daysBeforeMonth_mono b.year (show (1:ℤ) ≤ a.month + 1 by omega)
      (show a.month + 1 ≤ b.month by omega) hbm2
    omega
  · rw [hyeq, hmeq]
    omega

/-- Totality link between the two date orders: a pair of dates that is
not ordered one way is strictly ordered the other way. -/
theorem dateLt_of_not_dateLe {a b : DateYMD} (h : ¬ dateLe a b) : dateLt b a := by
  cases a
  cases b
  simp only [dateLe, dateLt, DateYMD.mk.injEq, not_or] at h ⊢
  omega

/-- Base-constructor failure characterisation: Empleado construction
raises exactly when id or nombre is empty or fecha_ingreso is in the
future. -/
theorem mkEmpleado_eq_none_iff (id_empleado nombre : String)
    (fecha_ingreso hoy : DateYMD) :
    mkEmpleado id_empleado nombre fecha_ingreso hoy = none ↔
      id_empleado = "" ∨ nombre = "" ∨ dateLt hoy fecha_ingreso := by
  unfold mkEmpleado
  split_ifs with h1 h2 <;> simp <;> tauto

/-- C1: for every employee of any variant and any current date, the
inherited calcular_salario_neto returns
max(0, gross + benefits - deductions(gross)), and hence is never
negative. -/
theorem C1_salario_neto_clamped_nonneg (e : AnyEmpleado) (hoy : DateYMD) :
    e.calcular_salario_neto hoy =
      max 0 (e.calcular_salario_bruto + e.calcular_beneficios hoy -
        e.calcular_deducciones e.calcular_salario_bruto) ∧
    0 ≤ e.calcular_salario_neto hoy := by
  exact ⟨rfl, le_max_left _ _⟩

/-- C2: for every variant and every gross amount, deductions are
exactly gross times 0.04; each variant resolves to the single
base-class definition, so the rule is identical across variants. -/
theorem C2_deducciones_flat (e : AnyEmpleado) (g : ℚ) :
    e.calcular_deducciones g = Empleado.calcular_deducciones g ∧
    Empleado.calcular_deducciones g = g * 0.04 := by
  refine ⟨?_, rfl⟩
  cases e <;> rfl

/-- C3: each bonus threshold is strict.  At exactly 5 whole years of
tenure the seniority bonus is 0; at exactly 1 whole year (or when the
fund was not accepted) the savings fund is 0; at sales of exactly
20,000,000 the sales bonus is 0. -/
theorem C3_umbrales_estrictos :
    (∀ (e : EmpleadoAsalariado) (hoy : DateYMD),
       e.base.obtener_antiguedad_anos hoy = 5 →
         e.calcular_bono_antiguedad hoy = 0) ∧
    (∀ (e : EmpleadoPorHoras) (hoy : DateYMD),
       e.base.obtener_antiguedad_anos hoy = 1 ∨ e.acepta_fondo_ahorro = false →
         e.calcular_fondo_ahorro hoy = 0) ∧
    (∀ e : EmpleadoPorComision,
       e.ventas_mes = 20000000 → e.calcular_bono_ventas = 0) := by
  refine ⟨?_, ?_, ?_⟩
  · intro e hoy h
    unfold EmpleadoAsalariado.calcular_bono_antiguedad
    rw [h]
    norm_num [EmpleadoAsalariado.ANOS_MINIMOS_BONO]
  · intro e hoy h
    unfold EmpleadoPorHoras.calcular_fondo_ahorro
    rcases h with h | h <;>
      rw [h] <;>
      norm_num [EmpleadoPorHoras.ANOS_MINIMOS_FONDO]
  · intro e h
    unfold EmpleadoPorComision.calcular_bono_ventas
    rw [h]
    norm_num [EmpleadoPorComision.VENTAS_MINIMAS_BONO]

/-- C3 witness: ejemploAsalariado has exactly 5 years of tenure at
hoy0 and gets no seniority bonus; ejemploPorHoras has exactly 1 year
and gets no savings fund; ejemploPorComisionBorde sells exactly
20,000,000 and gets no sales bonus. -/
theorem C3_umbrales_estrictos_witness :
    ejemploAsalariado.calcular_bono_antiguedad hoy0 = 0 ∧
    ejemploPorHoras.calcular_fondo_ahorro hoy0 = 0 ∧
    ejemploPorComisionBorde.calcular_bono_ventas = 0 := by
  refine ⟨C3_umbrales_estrictos.1 ejemploAsalariado hoy0 (by decide),
          C3_umbrales_estrictos.2.1 ejemploPorHoras hoy0 (Or.inl (by decide)),
          C3_umbrales_estrictos.2.2 ejemploPorComisionBorde rfl⟩

/-- C4: above the threshold the sales bonus is 3 percent of the whole
sales figure and benefits are 1,000,000 plus that bonus; scenario E
(base 2,000,000, rate 0.05, sales 25,000,000) yields commission
1,250,000, gross 3,250,000, bonus 750,000, benefits 1,750,000. -/
theorem C4_bono_ventas_sobre_total :
    (∀ e : EmpleadoPorComision, (20000000 : ℚ) < e.ventas_mes →
       e.calcular_bono_ventas = e.ventas_mes * 0.03 ∧
       e.calcular_beneficios = 1000000 + e.ventas_mes * 0.03) ∧
    (ejemploPorComision.calcular_comision = 1250000 ∧
     ejemploPorComision.calcular_salario_bruto = 3250000 ∧
     ejemploPorComision.calcular_bono_ventas = 750000 ∧
     ejemploPorComision.calcular_beneficios = 1750000) := by
  constructor
  · intro e h
    have hb : e.calcular_bono_ventas = e.ventas_mes * 0.03 := by
      unfold EmpleadoPorComision.calcular_bono_ventas
      rw [if_pos (show e.ventas_mes > EmpleadoPorComision.VENTAS_MINIMAS_BONO from h)]
      norm_num [EmpleadoPorComision.PORCENTAJE_BONO_VENTAS]
    refine ⟨hb, ?_⟩
    unfold EmpleadoPorComision.calcular_beneficios
    rw [hb]
    norm_num [EmpleadoPorComision.BONO_ALIMENTACION]
  · refine ⟨?_, ?_, ?_, ?_⟩ <;>
      norm_num [ejemploPorComision, EmpleadoPorComision.calcular_comision,
        EmpleadoPorComision.calcular_salario_bruto,
        EmpleadoPorComision.calcular_bono_ventas,
        EmpleadoPorComision.calcular_beneficios,
        EmpleadoPorComision.VENTAS_MINIMAS_BONO,
        EmpleadoPorComision.PORCENTAJE_BONO_VENTAS,
        EmpleadoPorComision.BONO_ALIMENTACION]

/-- C4 witness: the general threshold clause applied to scenario E. -/
theorem C4_bono_ventas_sobre_total_witness :
    ejemploPorComision.calcular_bono_ventas =
      ejemploPorComision.ventas_mes * 0.03 := by
  exact (C4_bono_ventas_sobre_total.1 ejemploPorComision
    (by norm_num [ejemploPorComision])).1

/-- C5: hourly gross pay is min(hours, 40) at the base rate plus
max(hours - 40, 0) at 1.5 times the rate; at rate 50,000 and 45 hours
it is 2,375,000; with at most 40 hours there is no overtime. -/
theorem C5_salario_bruto_por_horas :
    (∀ e : EmpleadoPorHoras,
       e.calcular_salario_bruto =
         min e.horas_trabajadas 40 * e.tarifa_por_hora +
           max (e.horas_trabajadas - 40) 0 * e.tarifa_por_hora * 1.5) ∧
    ejemploPorHoras.calcular_salario_bruto = 2375000 ∧
    (∀ e : EmpleadoPorHoras, e.horas_trabajadas ≤ 40 →
       e.calcular_horas_extras = 0) := by
  refine ⟨?_, ?_, ?_⟩
  · intro e
    simp only [EmpleadoPorHoras.calcular_salario_bruto,
      EmpleadoPorHoras.calcular_horas_normales,
      EmpleadoPorHoras.calcular_horas_extras,
      EmpleadoPorHoras.HORAS_NORMALES_LIMITE,
      EmpleadoPorHoras.MULTIPLICADOR_HORAS_EXTRAS]
    rcases le_or_lt e.horas_trabajadas 40 with h | h
    · rw [if_neg (not_lt.2 h), max_eq_right (by linarith)]
    · rw [if_pos h, max_eq_left (by linarith)]
  · norm_num [ejemploPorHoras, EmpleadoPorHoras.calcular_salario_bruto,
      EmpleadoPorHoras.calcular_horas_normales,
      EmpleadoPorHoras.calcular_horas_extras,
      EmpleadoPorHoras.HORAS_NORMALES_LIMITE,
      EmpleadoPorHoras.MULTIPLICADOR_HORAS_EXTRAS, min_def]
  · intro e h
    simp only [EmpleadoPorHoras.calcular_horas_extras,
      EmpleadoPorHoras.HORAS_NORMALES_LIMITE]
    rw [if_neg (not_lt.2 h)]

/-- C5 witness: scenario D hours (35) produce zero overtime. -/
theorem C5_salario_bruto_por_horas_witness :
    ejemploPorHoras35.calcular_horas_extras = 0 := by
  exact C5_salario_bruto_por_horas.2.2 ejemploPorHoras35
    (by norm_num [ejemploPorHoras35])

/-- C6: each variant constructor fails (raises ValidationError,
embedded as none) exactly when one of the validation conditions holds;
when it fails no object is produced, and when it succeeds the object
carries exactly the validated fields. -/
theorem C6_construccion_falla_iff :
    (∀ (id_empleado nombre : String) (fecha_ingreso hoy : DateYMD)
       (salario_mensual : ℚ),
       mkEmpleadoAsalariado id_empleado nombre fecha_ingreso hoy salario_mensual = none ↔
         (id_empleado = "" ∨ nombre = "" ∨ dateLt hoy fecha_ingreso ∨
           salario_mensual ≤ 0)) ∧
    (∀ (id_empleado nombre : String) (fecha_ingreso hoy : DateYMD)
       (tarifa_por_hora horas_trabajadas : ℚ) (acepta_fondo_ahorro : Bool),
       mkEmpleadoPorHoras id_empleado nombre fecha_ingreso hoy tarifa_por_hora
           horas_trabajadas acepta_fondo_ahorro = none ↔
         (id_empleado = "" ∨ nombre = "" ∨ dateLt hoy fecha_ingreso ∨
           tarifa_por_hora ≤ 0 ∨ horas_trabajadas < 0)) ∧
    (∀ (id_empleado nombre : String) (fecha_ingreso hoy : DateYMD)
       (salario_base porcentaje_comision ventas_mes : ℚ),
       mkEmpleadoPorComision id_empleado nombre fecha_ingreso hoy salario_base
           porcentaje_comision ventas_mes = none ↔
         (id_empleado = "" ∨ nombre = "" ∨ dateLt hoy fecha_ingreso ∨
           salario_base ≤ 0 ∨ porcentaje_comision < 0 ∨ 1 < porcentaje_comision ∨
           ventas_mes < 0)) ∧
    (∀ (id_empleado nombre : String) (fecha_ingreso hoy : DateYMD)
       (salario_mensual : ℚ) (fecha_fin_contrato : DateYMD),
       mkEmpleadoTemporal id_empleado nombre fecha_ingreso hoy salario_mensual
           fecha_fin_contrato = none ↔
         (id_empleado = "" ∨ nombre = "" ∨ dateLt hoy fecha_ingreso ∨
           salario_mensual ≤ 0 ∨ dateLe fecha_fin_contrato fecha_ingreso)) := by
  refine ⟨?_, ?_, ?_, ?_⟩
  · intro id_empleado nombre fecha_ingreso hoy salario_mensual
    cases hb : mkEmpleado id_empleado nombre fecha_ingreso hoy with
    | none =>
      have hc := (mkEmpleado_eq_none_iff id_empleado nombre fecha_ingreso hoy).mp hb
      simp only [mkEmpleadoAsalariado, hb]
      simp only [true_iff]
      tauto
    | some b =>
      have hnb : ¬ (id_empleado = "" ∨ nombre = "" ∨ dateLt hoy fecha_ingreso) := by
        intro hc
        rw [(mkEmpleado_eq_none_iff id_empleado nombre fecha_ingreso hoy).mpr hc] at hb
        exact Option.noConfusion hb
      simp only [mkEmpleadoAsalariado, hb]
      split_ifs with hs <;> simp_all
  · intro id_empleado nombre fecha_ingreso hoy tarifa_por_hora horas_trabajadas acepta_fondo_ahorro
    cases hb : mkEmpleado id_empleado nombre fecha_ingreso hoy with
    | none =>
      have hc := (mkEmpleado_eq_none_iff id_empleado nombre fecha_ingreso hoy).mp hb
      simp only [mkEmpleadoPorHoras, hb]
      simp only [true_iff]
      tauto
    | some b =>
      have hnb : ¬ (id_empleado = "" ∨ nombre = "" ∨ dateLt hoy fecha_ingreso) := by
        intro hc
        rw [(mkEmpleado_eq_none_iff id_empleado nombre fecha_ingreso hoy).mpr hc] at hb
        exact Option.noConfusion hb
      simp only [mkEmpleadoPorHoras, hb]
      split_ifs with h1 h2 <;> simp_all
  · intro id_empleado nombre fecha_ingreso hoy salario_base porcentaje_comision ventas_mes
    cases hb : mkEmpleado id_empleado nombre fecha_ingreso hoy with
    | none =>
      have hc := (mkEmpleado_eq_none_iff id_empleado nombre fecha_ingreso hoy).mp hb
      simp only [mkEmpleadoPorComision, hb]
      simp only [true_iff]
      tauto
    | some b =>
      have hnb : ¬ (id_empleado = "" ∨ nombre = "" ∨ dateLt hoy fecha_ingreso) := by
        intro hc
        rw [(mkEmpleado_eq_none_iff id_empleado nombre fecha_ingreso hoy).mpr hc] at hb
        exact Option.noConfusion hb
      simp only [mkEmpleadoPorComision, hb]
      split_ifs with h1 h2 h3 <;> simp_all
      tauto
  · intro id_empleado nombre fecha_ingreso hoy salario_mensual fecha_fin_contrato
    cases hb : mkEmpleado id_empleado nombre fecha_ingreso hoy with
    | none =>
      have hc := (mkEmpleado_eq_none_iff id_empleado nombre fecha_ingreso hoy).mp hb
      simp only [mkEmpleadoTemporal, hb]
      simp only [true_iff]
      tauto
    | some b =>
      have hnb : ¬ (id_empleado = "" ∨ nombre = "" ∨ dateLt hoy fecha_ingreso) := by
        intro hc
        rw [(mkEmpleado_eq_none_iff id_empleado nombre fecha_ingreso hoy).mpr hc] at hb
        exact Option.noConfusion hb
      simp only [mkEmpleadoTemporal, hb]
      split_ifs with h1 h2 <;> simp_all

/-- C6 witness: the salaried clause at a concrete failing input (empty
id), whose right-hand side holds. -/
theorem C6_construccion_falla_iff_witness :
    mkEmpleadoAsalariado ("") ("Ana") ⟨2020, 6, 1⟩ hoy0 5000000 = none := by
  exact (C6_construccion_falla_iff.1 ("") ("Ana") ⟨2020, 6, 1⟩ hoy0 5000000).mpr
    (Or.inl rfl)

/-- C7: the hours setter and the sales setter fail on a negative value
(none: the exception propagates and the object keeps its previous
state) and on a non-negative value store exactly the given value,
leaving every other field unchanged. -/
theorem C7_setters_validados :
    (∀ (e : EmpleadoPorHoras) (horas : ℚ),
       (horas < 0 → e.set_horas_trabajadas horas = none) ∧
       (0 ≤ horas → e.set_horas_trabajadas horas =
          some ⟨e.base, e.tarifa_por_hora, horas, e.acepta_fondo_ahorro⟩)) ∧
    (∀ (e : EmpleadoPorComision) (ventas : ℚ),
       (ventas < 0 → e.set_ventas_mes ventas = none) ∧
       (0 ≤ ventas → e.set_ventas_mes ventas =
          some ⟨e.base, e.salario_base, e.porcentaje_comision, ventas⟩)) := by
  constructor
  · intro e horas
    constructor
    · intro h
      unfold EmpleadoPorHoras.set_horas_trabajadas
      rw [if_pos h]
    · intro h
      unfold EmpleadoPorHoras.set_horas_trabajadas
      rw [if_neg (not_lt.2 h)]
  · intro e ventas
    constructor
    · intro h
      unfold EmpleadoPorComision.set_ventas_mes
      rw [if_pos h]
    · intro h
      unfold EmpleadoPorComision.set_ventas_mes
      rw [if_neg (not_lt.2 h)]

/-- C7 witness: a negative update is rejected and a non-negative update
stores exactly the new sales figure. -/
theorem C7_setters_validados_witness :
    ejemploPorHoras.set_horas_trabajadas (-1) = none ∧
    ejemploPorComision.set_ventas_mes 30000000 =
      some ⟨ejemploPorComision.base, ejemploPorComision.salario_base,
        ejemploPorComision.porcentaje_comision, 30000000⟩ := by
  exact ⟨(C7_setters_validados.1 ejemploPorHoras (-1)).1 (by norm_num),
         (C7_setters_validados.2 ejemploPorComision 30000000).2 (by norm_num)⟩

/-- C8: for valid dates, contrato_vigente is true exactly when today is
on or before fecha_fin_contrato (the end date itself counts as active);
dias_restantes_contrato is the ordinal difference
fecha_fin_contrato - today in days; after expiry it is strictly
negative, with no clamping. -/
theorem C8_contrato_vigente_dias (e : EmpleadoTemporal) (hoy : DateYMD)
    (h1 : ValidDate hoy) (h2 : ValidDate e.fecha_fin_contrato) :
    (e.contrato_vigente hoy = true ↔ dateLe hoy e.fecha_fin_contrato) ∧
    e.dias_restantes_contrato hoy =
      toOrdinal e.fecha_fin_contrato - toOrdinal hoy ∧
    (¬ dateLe hoy e.fecha_fin_contrato → e.dias_restantes_contrato hoy < 0) := by
  refine ⟨?_, rfl, ?_⟩
  · unfold EmpleadoTemporal.contrato_vigente
    exact ⟨of_decide_eq_true, decide_eq_true⟩
  · intro hn
    have hlt := dateLt_of_not_dateLe hn
    have hord := toOrdinal_lt_of_dateLt h2 h1 hlt
    unfold EmpleadoTemporal.dias_restantes_contrato
    omega

/-- C8 witness: the theorem applied to the concrete temporary employee
and the concrete current date, both valid dates. -/
theorem C8_contrato_vigente_dias_witness :
    ejemploTemporal.contrato_vigente hoy0 = true ↔
      dateLe hoy0 ejemploTemporal.fecha_fin_contrato := by
  exact (C8_contrato_vigente_dias ejemploTemporal hoy0 (by decide) (by decide)).1

/-- Gross pay is non-negative for every validly constructed employee. -/
theorem salario_bruto_nonneg (e : AnyEmpleado) (hv : e.Valid) :
    0 ≤ e.calcular_salario_bruto := by
  cases e with
  | asalariado a =>
    exact le_of_lt hv
  | porHoras a =>
    obtain ⟨ht, hh⟩ := hv
    have h1 : 0 ≤ a.calcular_horas_normales :=
      le_min hh (by norm_num [EmpleadoPorHoras.HORAS_NORMALES_LIMITE])
    have h2 : 0 ≤ a.calcular_horas_extras := by
      unfold EmpleadoPorHoras.calcular_horas_extras
      split_ifs with h
      · have : EmpleadoPorHoras.HORAS_NORMALES_LIMITE < a.horas_trabajadas := h
        linarith
      · exact le_refl 0
    show 0 ≤ a.calcular_horas_normales * a.tarifa_por_hora +
      a.calcular_horas_extras * a.tarifa_por_hora *
        EmpleadoPorHoras.MULTIPLICADOR_HORAS_EXTRAS
    have ht0 := le_of_lt ht
    exact add_nonneg (mul_nonneg h1 ht0)
      (mul_nonneg (mul_nonneg h2 ht0)
        (by norm_num [EmpleadoPorHoras.MULTIPLICADOR_HORAS_EXTRAS]))
  | porComision a =>
    obtain ⟨hs, hp, hp1, hv0⟩ := hv
    show 0 ≤ a.salario_base + a.calcular_comision
    exact add_nonneg (le_of_lt hs) (mul_nonneg hv0 hp)
  | temporal a =>
    exact le_of_lt hv.1

/-- Benefits are non-negative for every validly constructed employee. -/
theorem beneficios_nonneg (e : AnyEmpleado) (hoy : DateYMD) (hv : e.Valid) :
    0 ≤ e.calcular_beneficios hoy := by
  cases e with
  | asalariado a =>
    show 0 ≤ EmpleadoAsalariado.BONO_ALIMENTACION + a.calcular_bono_antiguedad hoy
    have h1 : 0 ≤ a.calcular_bono_antiguedad hoy := by
      unfold EmpleadoAsalariado.calcular_bono_antiguedad
      split_ifs
      · exact mul_nonneg (le_of_lt hv)
          (by norm_num [EmpleadoAsalariado.PORCENTAJE_BONO_ANTIGUEDAD])
      · exact le_refl 0
    have h2 : (0:ℚ) ≤ EmpleadoAsalariado.BONO_ALIMENTACION := by
      norm_num [EmpleadoAsalariado.BONO_ALIMENTACION]
    linarith
  | porHoras a =>
    have hbruto := salario_bruto_nonneg (.porHoras a) hv
    show 0 ≤ a.calcular_fondo_ahorro hoy
    unfold EmpleadoPorHoras.calcular_fondo_ahorro
    split_ifs
    · exact mul_nonneg hbruto
        (by norm_num [EmpleadoPorHoras.PORCENTAJE_FONDO_AHORRO])
    · exact le_refl 0
  | porComision a =>
    obtain ⟨hs, hp, hp1, hv0⟩ := hv
    show 0 ≤ EmpleadoPorComision.BONO_ALIMENTACION + a.calcular_bono_ventas
    have h1 : 0 ≤ a.calcular_bono_ventas := by
      unfold EmpleadoPorComision.calcular_bono_ventas
      split_ifs
      · exact mul_nonneg hv0
          (by norm_num [EmpleadoPorComision.PORCENTAJE_BONO_VENTAS])
      · exact le_refl 0
    have h2 : (0:ℚ) ≤ EmpleadoPorComision.BONO_ALIMENTACION := by
      norm_num [EmpleadoPorComision.BONO_ALIMENTACION]
    linarith
  | temporal a =>
    exact le_refl 0

/-- C10: for every validly constructed employee, gross pay and benefits
are non-negative, so gross + benefits - 0.04 * gross is non-negative
and the max(0, ...) clamp in calcular_salario_neto never changes the
result: net pay equals gross + benefits - deductions exactly. -/
theorem C10_clamp_inactivo (e : AnyEmpleado) (hoy : DateYMD) (hv : e.Valid) :
    0 ≤ e.calcular_salario_bruto ∧ 0 ≤ e.calcular_beneficios hoy ∧
    e.calcular_salario_neto hoy =
      e.calcular_salario_bruto + e.calcular_beneficios hoy -
        e.calcular_deducciones e.calcular_salario_bruto := by
  have hb := salario_bruto_nonneg e hv
  have hben := beneficios_nonneg e hoy hv
  refine ⟨hb, hben, ?_⟩
  have hded : e.calcular_deducciones e.calcular_salario_bruto =
      e.calcular_salario_bruto * 0.04 := by
    cases e <;> rfl
  show max 0 (e.calcular_salario_bruto + e.calcular_beneficios hoy -
    e.calcular_deducciones e.calcular_salario_bruto) = _
  rw [hded]
  have hle : e.calcular_salario_bruto * 0.04 ≤ e.calcular_salario_bruto :=
    mul_le_of_le_one_right hb (by norm_num)
  exact max_eq_right (by linarith)

/-- C10 witness: the theorem applied to the concrete valid salaried
employee. -/
theorem C10_clamp_inactivo_witness :
    (AnyEmpleado.asalariado ejemploAsalariado).calcular_salario_neto hoy0 =
      (AnyEmpleado.asalariado ejemploAsalariado).calcular_salario_bruto +
        (AnyEmpleado.asalariado ejemploAsalariado).calcular_beneficios hoy0 -
        (AnyEmpleado.asalariado ejemploAsalariado).calcular_deducciones
          (AnyEmpleado.asalariado ejemploAsalariado).calcular_salario_bruto := by
  exact (C10_clamp_inactivo (.asalariado ejemploAsalariado) hoy0
    (by norm_num [AnyEmpleado.Valid, ejemploAsalariado])).2.2

/-- C9 counterexample: the hourly detail dictionary does not consist
exactly of the fields section 4.3 lists; it also carries the employee
name and the type tag, which section 4 lists only for the salaried
variant. -/
theorem C9_detalle_counterexample :
    ¬ ((ejemploPorHoras.obtener_detalle_nomina hoy0).map Prod.fst =
        specListedFieldsPorHoras) := by
  decide

/-- C9 amended: every detail dictionary starts with the employee name
and the type tag and then carries exactly the fields section 4 lists
for that variant, in the listed order (for the salaried variant the
section 4.2 list already includes those two entries); in every variant
the deducciones entry is 0.04 times the salario_bruto entry and the
salario_neto entry is calcular_salario_neto(). -/
theorem C9_detalle_campos_y_consistencia :
    (∀ (e : EmpleadoAsalariado) (hoy : DateYMD),
       (e.obtener_detalle_nomina hoy).map Prod.fst = specListedFieldsAsalariado ∧
       (e.obtener_detalle_nomina hoy).lookup ("salario_bruto") =
         some (Valor.num e.calcular_salario_bruto) ∧
       (e.obtener_detalle_nomina hoy).lookup ("deducciones") =
         some (Valor.num (e.calcular_salario_bruto * 0.04)) ∧
       (e.obtener_detalle_nomina hoy).lookup ("salario_neto") =
         some (Valor.num (e.calcular_salario_neto hoy))) ∧
    (∀ (e : EmpleadoPorHoras) (hoy : DateYMD),
       (e.obtener_detalle_nomina hoy).map Prod.fst =
         [("empleado"), ("tipo")] ++ specListedFieldsPorHoras ∧
       (e.obtener_detalle_nomina hoy).lookup ("salario_bruto") =
         some (Valor.num e.calcular_salario_bruto) ∧
       (e.obtener_detalle_nomina hoy).lookup ("deducciones") =
         some (Valor.num (e.calcular_salario_bruto * 0.04)) ∧
       (e.obtener_detalle_nomina hoy).lookup ("salario_neto") =
         some (Valor.num (e.calcular_salario_neto hoy))) ∧
    (∀ (e : EmpleadoPorComision) (hoy : DateYMD),
       (e.obtener_detalle_nomina hoy).map Prod.fst =
         [("empleado"), ("tipo")] ++ specListedFieldsPorComision ∧
       (e.obtener_detalle_nomina hoy).lookup ("salario_bruto") =
         some (Valor.num e.calcular_salario_bruto) ∧
       (e.obtener_detalle_nomina hoy).lookup ("deducciones") =
         some (Valor.num (e.calcular_salario_bruto * 0.04)) ∧
       (e.obtener_detalle_nomina hoy).lookup ("salario_neto") =
         some (Valor.num (e.calcular_salario_neto hoy))) ∧
    (∀ (e : EmpleadoTemporal) (hoy : DateYMD),
       (e.obtener_detalle_nomina hoy).map Prod.fst =
         [("empleado"), ("tipo")] ++ specListedFieldsTemporal ∧
       (e.obtener_detalle_nomina hoy).lookup ("salario_bruto") =
         some (Valor.num e.calcular_salario_bruto) ∧
       (e.obtener_detalle_nomina hoy).lookup ("deducciones") =
         some (Valor.num (e.calcular_salario_bruto * 0.04)) ∧
       (e.obtener_detalle_nomina hoy).lookup ("salario_neto") =
         some (Valor.num (e.calcular_salario_neto hoy))) := by
  refine ⟨?_, ?_, ?_, ?_⟩ <;>
    intro e hoy <;>
    exact ⟨rfl, rfl, rfl, rfl⟩

end SistemaNomina
